import Mathlib

/-!
Shallow embedding of the frame production and scheduling engine of
thermalright-lcd-control:
  src/thermalright_lcd_control/device_controller/display/config.py
  src/thermalright_lcd_control/device_controller/display/window_capture.py
  src/thermalright_lcd_control/device_controller/display/frame_manager.py

Modelling conventions:
  * Wall-clock times and durations are rationals (ℚ); Python floats carry
    exact decimal literals in all code paths under verification.
  * A PIL image is a structure carrying width, height, mode string and a
    pixel function.  PIL's Lanczos resampling kernel is abstracted to point
    sampling: every verified property depends only on output geometry, mode,
    and on pixels that originate from a constant canvas (so the kernel is
    irrelevant to them).
  * Fallible Python code (raise) is embedded as Except String.
  * Out-of-range list indexing (Python IndexError / ZeroDivisionError on
    `% 0`) is modelled totally: `List.getD` with the sentinel image
    `Img.fail` (0 × 0, empty mode), and Nat `% 0`.  Comments mark each spot.
-/

/-- One RGBA pixel. -/
structure Pixel where
  r : Nat
  g : Nat
  b : Nat
  a : Nat
deriving DecidableEq

/-- A PIL image: dimensions, mode string (for example "RGBA", "RGB"), and a
pixel function. -/
structure Img where
  width : Nat
  height : Nat
  mode : String
  px : Nat → Nat → Pixel

/-- Sentinel standing for the absence of a valid image: where Python raises
IndexError on an empty frame list, the embedding returns this 0 × 0 image. -/
def Img.fail : Img := ⟨0, 0, "", fun _ _ => ⟨0, 0, 0, 0⟩⟩

/-- PIL Image.resize to the requested size: output geometry and mode are what
PIL guarantees; the Lanczos resampling kernel is abstracted to point
sampling (no verified property depends on the kernel). -/
def Img.resize (img : Img) (w h : Nat) : Img :=
  ⟨w, h, img.mode, fun x y => img.px (x * img.width / w) (y * img.height / h)⟩

/-- Pixel conversion used by Image.convert: converting into RGBA forces an
opaque alpha channel when the source had none; other conversions are beyond
the verified claims and leave the pixel unchanged. -/
def convertPixel (src dst : String) (p : Pixel) : Pixel :=
  if dst = "RGBA" ∧ src ≠ "RGBA" then { p with a := 255 } else p

/-- PIL Image.convert: same geometry, new mode. -/
def Img.convert (img : Img) (m : String) : Img :=
  ⟨img.width, img.height, m, fun x y => convertPixel img.mode m (img.px x y)⟩

/-- PIL Image.crop (left, top, right, bottom). -/
def Img.crop (img : Img) (left top right bottom : Nat) : Img :=
  ⟨right - left, bottom - top, img.mode, fun x y => img.px (left + x) (top + y)⟩

/-- PIL Image.new (mode, (w, h), color). -/
def Img.new (m : String) (w h : Nat) (c : Pixel) : Img :=
  ⟨w, h, m, fun _ _ => c⟩

/-- PIL canvas.paste(img, (x, y)): pixels inside the pasted box come from
img, the rest keep the canvas value; geometry and mode are the canvas's.
(PIL clips the box at the canvas border; queries here stay in the canvas
domain, where clipping is the identity.) -/
def Img.paste (canvas img : Img) (x y : Nat) : Img :=
  ⟨canvas.width, canvas.height, canvas.mode, fun u v =>
    if x ≤ u ∧ u < x + img.width ∧ y ≤ v ∧ v < y + img.height then
      img.px (u - x) (v - y)
    else canvas.px u v⟩

/-- The trailing `if image.mode != 'RGBA': image = image.convert('RGBA')`
idiom shared by FrameManager._resize_image and WindowCapture._apply_scaling. -/
def ensureRGBA (img : Img) : Img :=
  if img.mode ≠ "RGBA" then img.convert "RGBA" else img

/-- Python int() applied to a rational.  int() truncates toward zero; every
call site multiplies a nonnegative size by the scale factor, where
truncation coincides with the floor. -/
def pyInt (q : ℚ) : Nat := (Rat.floor q).toNat

/-- window_capture.py WindowCapture.__init__ state (platform backend fields
are outside the verified claims and omitted). -/
structure WindowCapture where
  window_title : String
  target_width : Nat
  target_height : Nat
  fps : Nat
  frame_interval : ℚ
  scale_factor : ℚ

/-- WindowCapture.__init__(window_title, target_width=320, target_height=240,
fps=30, scale_factor=1.0). -/
def WindowCapture.init (window_title : String) (target_width : Nat := 320)
    (target_height : Nat := 240) (fps : Nat := 30) (scale_factor : ℚ := 1) :
    WindowCapture :=
  { window_title := window_title
    target_width := target_width
    target_height := target_height
    fps := fps
    frame_interval := 1 / (fps : ℚ)
    scale_factor := scale_factor }

/-- window_capture.py WindowCapture._apply_scaling. -/
def WindowCapture.applyScaling (wc : WindowCapture) (img : Img) : Img :=
  let img :=
    if wc.scale_factor ≠ 1 then
      let scaled_width := pyInt ((wc.target_width : ℚ) * wc.scale_factor)
      let scaled_height := pyInt ((wc.target_height : ℚ) * wc.scale_factor)
      let img := img.resize scaled_width scaled_height
      if 1 < wc.scale_factor then
        let left := (scaled_width - wc.target_width) / 2
        let top := (scaled_height - wc.target_height) / 2
        img.crop left top (left + wc.target_width) (top + wc.target_height)
      else if wc.scale_factor < 1 then
        let result := Img.new "RGBA" wc.target_width wc.target_height ⟨0, 0, 0, 255⟩
        let paste_x := (wc.target_width - scaled_width) / 2
        let paste_y := (wc.target_height - scaled_height) / 2
        result.paste img paste_x paste_y
      else img
    else
      img.resize wc.target_width wc.target_height
  ensureRGBA img

/-- window_capture.py WindowCapture.capture_frame: find_window plus the
backend grab are environment effects, abstracted as an optional raw image
(none models "window not found" and every caught backend exception); a
successful grab passes through _apply_scaling. -/
def WindowCapture.captureFrame (wc : WindowCapture) (raw : Option Img) : Option Img :=
  raw.map wc.applyScaling

/-! ## config.py -/

/-- config.py BackgroundType. -/
inductive BackgroundType where
  | image
  | gif
  | video
  | image_collection
  | window_capture
deriving DecidableEq

/-- config.py DisplayConfig (fields consumed by the verified core; text and
foreground overlay fields are downstream of frame production and omitted;
metrics_configs is kept as the list of configured metric names, since the
core only branches on its emptiness). -/
structure DisplayConfig where
  background_path : String
  background_type : BackgroundType
  output_width : Nat := 320
  output_height : Nat := 240
  rotation : Nat := 0
  scale_factor : ℚ := 1
  window_title : Option String := none
  capture_fps : Nat := 30
  metrics_configs : List String := []

/-! ## Environment

External collaborators of frame_manager.py (filesystem, PIL decoding,
OpenCV, metric collectors, capture backends) are an oracle record: each
field is the repository-external answer the Python call would obtain. -/

/-- A metric value as collected: number or string. -/
inductive MVal where
  | num (q : ℚ)
  | str (s : String)
deriving DecidableEq

/-- The published metrics mapping (dict keys in insertion order). -/
def Metrics := List (String × Option MVal)
deriving DecidableEq

/-- Oracle for everything outside frame_manager.py. -/
structure Env where
  hasOpenCV : Bool
  hasWindowCapture : Bool
  captureBackendAvailable : Bool
  pathExists : String → Bool
  isDir : String → Bool
  openImage : String → Option Img
  gifFrames : String → List (Img × Option Nat)
  videoOpens : String → Bool
  videoFps : String → ℚ
  videoFrames : String → List Img
  collectionFiles : String → List String
  cpuData : Except String (String → Option MVal)
  gpuData : Except String (String → Option MVal)

/-!
Oracle field ↔ Python call correspondence:
  pathExists p      — os.path.exists(p); isDir p — os.path.isdir(p)
  openImage p       — PIL Image.open(p) (none: the call raises)
  gifFrames p       — ImageSequence.Iterator over the opened GIF, paired
                      with each frame's authored duration in ms from
                      frame.info (none: key absent)
  videoOpens p      — cv2.VideoCapture(p).isOpened()
  videoFps p        — capture.get(cv2.CAP_PROP_FPS)
  videoFrames p     — the frames the read loop actually decodes before a
                      failed read breaks it (BGR→RGB converted)
  collectionFiles p — the glob over the raster extensions, sorted
  cpuData / gpuData — CpuMetrics/GpuMetrics().get_all_metrics()
                      (.error: the call raises)
-/

/-! ## frame_manager.py FrameManager -/

/-- FrameManager class constants. -/
def SUPPORTED_VIDEO_FORMATS : List String :=
  [".mp4", ".avi", ".mkv", ".mov", ".webm", ".flv", ".wmv", ".m4v"]

/-- FrameManager.DEFAULT_FRAME_DURATION. -/
def DEFAULT_FRAME_DURATION : ℚ := 2

/-- FrameManager.REFRESH_METRICS_INTERVAL. -/
def REFRESH_METRICS_INTERVAL : ℚ := 5

/-- Index of the last occurrence of a character in a list. -/
def lastIndexOfChar (cs : List Char) (c : Char) : Option Nat :=
  match cs with
  | [] => none
  | a :: rest =>
    match lastIndexOfChar rest c with
    | some i => some (i + 1)
    | none => if a = c then some 0 else none

/-- os.path.splitext(p)[1] on POSIX: the extension starts at the last dot,
provided that dot lies after the last path separator and at least one
non-dot character of the basename precedes it. -/
def splitextExt (p : String) : String :=
  let cs := p.data
  match lastIndexOfChar cs '.' with
  | none => ""
  | some di =>
    let si :=
      match lastIndexOfChar cs '/' with
      | some k => k + 1
      | none => 0
    if si ≤ di ∧ ((cs.drop si).take (di - si)).any (fun c => c ≠ '.') then
      String.mk (cs.drop di)
    else ""

/-- FrameManager._is_video_file. -/
def isVideoFile (file_path : String) : Bool :=
  if file_path = "" then false
  else SUPPORTED_VIDEO_FORMATS.contains (splitextExt file_path).toLower

/-- The mutable instance state of a FrameManager (the fields assigned across
the class; cpu_metrics/gpu_metrics collector objects live in the Env). The
field metrics_thread is true while a Timer is scheduled to fire. -/
structure FMState where
  config : DisplayConfig
  current_frame_index : Nat
  background_frames : List Img
  gif_durations : List ℚ
  frame_duration : ℚ
  frame_start_time : ℚ
  metrics_thread : Bool
  metrics_running : Bool
  window_capture : Option WindowCapture
  is_window_capture_mode : Bool
  current_metrics : Metrics

/-- FrameManager._resize_image. -/
def resizeImage (cfg : DisplayConfig) (image : Img) : Img :=
  ensureRGBA (image.resize cfg.output_width cfg.output_height)

/-- FrameManager._gif_duration: frame.info.get('duration', 100) / 1000.0.
GIF frame delays read by PIL are nonnegative integers in milliseconds; the
bare-except 0.1 fallback (reachable only if the info lookup itself raised)
is not modelled. -/
def gifDuration (authored : Option Nat) : ℚ :=
  ((authored.getD 100 : Nat) : ℚ) / 1000

/-- FrameManager._load_static_image. -/
def loadStaticImage (env : Env) (st : FMState) : Except String FMState :=
  if env.pathExists st.config.background_path = false then
    .error "FileNotFoundError: Background image not found"
  else
    match env.openImage st.config.background_path with
    | none => .error "cannot identify image file"
    | some image => .ok { st with background_frames := [resizeImage st.config image] }

/-- FrameManager._load_gif.  If the iterator yields no frame at all,
self.gif_durations[0] raises IndexError (PIL in fact yields at least one
frame from any GIF it opens, so construction then fails either way). -/
def loadGif (env : Env) (st : FMState) : Except String FMState :=
  if env.pathExists st.config.background_path = false then
    .error "FileNotFoundError: Background GIF not found"
  else
    let fs := env.gifFrames st.config.background_path
    let frames := fs.map (fun fr => resizeImage st.config fr.1)
    let durs := fs.map (fun fr => gifDuration fr.2)
    match durs with
    | [] => .error "IndexError: gif_durations is empty"
    | d0 :: rest =>
      .ok { st with background_frames := frames
                    gif_durations := d0 :: rest
                    frame_duration := d0 }

/-- FrameManager._load_video (reached only with OpenCV present and a
supported extension, which _load_background has already checked; the
method's own re-checks re-raise otherwise and are not re-modelled). -/
def loadVideo (env : Env) (st : FMState) : Except String FMState :=
  if env.pathExists st.config.background_path = false then
    .error "FileNotFoundError: Background video not found"
  else if env.videoOpens st.config.background_path = false then
    .error "RuntimeError: Cannot open video"
  else
    let fps := env.videoFps st.config.background_path
    .ok { st with
          frame_duration := if 0 < fps then 1 / fps else 1 / 30
          background_frames :=
            st.background_frames
              ++ (env.videoFrames st.config.background_path).map (resizeImage st.config) }

/-- Open and resize every file of an image collection; Image.open raising on
any file aborts the construction. -/
def openAll (env : Env) (cfg : DisplayConfig) : List String → Except String (List Img)
  | [] => .ok []
  | f :: fs =>
    match env.openImage f with
    | none => .error "cannot identify image file"
    | some image => (openAll env cfg fs).map (fun rest => resizeImage cfg image :: rest)

/-- FrameManager._load_image_collection. -/
def loadImageCollection (env : Env) (st : FMState) : Except String FMState :=
  if env.isDir st.config.background_path = false then
    .error "NotADirectoryError: Background directory not found"
  else
    let image_files := env.collectionFiles st.config.background_path
    if image_files = [] then .error "RuntimeError: No images found in directory"
    else
      (openAll env st.config image_files).map (fun imgs =>
        { st with background_frames := st.background_frames ++ imgs })

/-- FrameManager._load_window_capture.  The WindowCapture constructor call
passes window_title, target_width, target_height and fps only — its
scale_factor parameter is left at its default of 1.0. -/
def loadWindowCapture (env : Env) (st : FMState) : Except String FMState :=
  if env.hasWindowCapture = false then
    .error "RuntimeError: Window capture not available"
  else
    match st.config.window_title with
    | none => .error "ValueError: window_title must be specified"
    | some title =>
      if title = "" then .error "ValueError: window_title must be specified"
      else if env.captureBackendAvailable = false then
        .error "RuntimeError: no capture backend"
      else
        .ok { st with
              window_capture := some (WindowCapture.init title st.config.output_width
                st.config.output_height st.config.capture_fps)
              is_window_capture_mode := true
              frame_duration := 1 / (st.config.capture_fps : ℚ)
              background_frames :=
                [Img.new "RGBA" st.config.output_width st.config.output_height ⟨0, 0, 0, 255⟩] }

/-- FrameManager._load_background, called with the wall-clock reading t0
that time.time() returns at the end of loading. -/
def loadBackground (env : Env) (t0 : ℚ) (st : FMState) : Except String FMState :=
  (match st.config.background_type with
   | .image => loadStaticImage env st
   | .gif => loadGif env st
   | .video =>
     if env.hasOpenCV && isVideoFile st.config.background_path then loadVideo env st
     else
       loadStaticImage env st
   | .image_collection => loadImageCollection env st
   | .window_capture => loadWindowCapture env st).map
    (fun st : FMState => { st with frame_start_time := t0 })

/-- FrameManager._get_current_metric: builds the published mapping from the
collectors; a collector raising is logged and re-raised. -/
def getCurrentMetric (env : Env) : Except String Metrics := do
  let cpu_data ← env.cpuData
  let gpu_data ← env.gpuData
  .ok [("cpu_temperature", cpu_data "temperature"),
       ("cpu_usage", cpu_data "usage_percentage"),
       ("cpu_frequency", cpu_data "frequency"),
       ("gpu_temperature", gpu_data "temperature"),
       ("gpu_usage", gpu_data "usage_percentage"),
       ("gpu_frequency", gpu_data "frequency"),
       ("gpu_vendor", gpu_data "vendor"),
       ("gpu_name", gpu_data "name")]

/-- The instance fields as FrameManager.__init__ leaves them before the
metrics branch and background loading run. -/
def initState (cfg : DisplayConfig) : FMState :=
  { config := cfg
    current_frame_index := 0
    background_frames := []
    gif_durations := []
    frame_duration := DEFAULT_FRAME_DURATION
    frame_start_time := 0
    metrics_thread := false
    metrics_running := false
    window_capture := none
    is_window_capture_mode := false
    current_metrics := [] }

/-- FrameManager.__init__: the metrics branch (initial collection plus timer
start when metrics are configured; a raising collector aborts construction),
then _load_background. -/
def fmInit (env : Env) (t0 : ℚ) (cfg : DisplayConfig) : Except String FMState :=
  ((if cfg.metrics_configs ≠ [] then
      match getCurrentMetric env with
      | .error e => .error e
      | .ok m =>
        .ok { initState cfg with
              current_metrics := m
              metrics_running := true
              metrics_thread := true }
    else
      .ok (initState cfg)) : Except String FMState).bind (loadBackground env t0)

/-- FrameManager.get_current_frame, at wall-clock reading t; raw is the raw
grab an attempted capture would obtain on this poll (see
WindowCapture.captureFrame), unused outside window-capture mode.  Python
raises IndexError (empty background_frames) and ZeroDivisionError (`% 0`)
where this total model yields Img.fail and Nat `% 0`. -/
def getCurrentFrame (st : FMState) (t : ℚ) (raw : Option Img) : FMState × Img :=
  match st.is_window_capture_mode, st.window_capture with
  | true, some wc =>
    if st.frame_duration ≤ t - st.frame_start_time then
      let st1 := { st with frame_start_time := t }
      match wc.captureFrame raw with
      | some captured_frame => (st1, captured_frame)
      | none => (st1, st.background_frames.getD 0 Img.fail)
    else
      (st, (wc.captureFrame raw).getD (st.background_frames.getD 0 Img.fail))
  | _, _ =>
    let st1 :=
      if st.frame_duration ≤ t - st.frame_start_time then
        { st with
          frame_start_time := t
          current_frame_index := (st.current_frame_index + 1) % st.background_frames.length }
      else st
    let st2 :=
      if st1.config.background_type = BackgroundType.gif then
        { st1 with frame_duration := st1.gif_durations.getD st1.current_frame_index 0 }
      else st1
    (st2, st2.background_frames.getD st2.current_frame_index Img.fail)

/-- A sequence of polls: each element carries the time.time() reading and
the raw grab available to a capture attempt on that poll; returns the final
state and every returned buffer in order. -/
def runPolls (st : FMState) : List (ℚ × Option Img) → FMState × List Img
  | [] => (st, [])
  | (t, raw) :: ps =>
    let step := getCurrentFrame st t raw
    let rest := runPolls step.1 ps
    (rest.1, step.2 :: rest.2)

/-- FrameManager._metrics_update_loop, run when a scheduled Timer fires (so
the pending timer is spent): a raising _get_current_metric propagates out of
the Timer thread after logging — current_metrics keeps its old value and no
new Timer is started; on success the snapshot is replaced wholesale and a
new Timer is started iff metrics_running. -/
def metricsUpdateLoop (env : Env) (st : FMState) : FMState × Option String :=
  match getCurrentMetric env with
  | .error e => ({ st with metrics_thread := false }, some e)
  | .ok new_metrics =>
    if st.metrics_running then
      ({ st with current_metrics := new_metrics, metrics_thread := true }, none)
    else
      ({ st with current_metrics := new_metrics, metrics_thread := false }, none)

/-- FrameManager.get_current_metrics. -/
def getCurrentMetrics (st : FMState) : Metrics := st.current_metrics

/-- Every attribute name that appears as an assignment target `self.X = ...`
anywhere in the FrameManager class body. -/
def instanceAttributes : List String :=
  ["config", "logger", "current_frame_index", "background_frames", "gif_durations",
   "frame_duration", "frame_start_time", "metrics_thread", "metrics_running",
   "window_capture", "is_window_capture_mode", "cpu_metrics", "gpu_metrics",
   "current_metrics"]

/-- The class-level attribute names of FrameManager. -/
def classAttributes : List String :=
  ["SUPPORTED_VIDEO_FORMATS", "DEFAULT_FRAME_DURATION", "REFRESH_METRICS_INTERVAL"]

/-- FrameManager.get_current_frame_info.  Its body reads self.wait_duration;
Python resolves an attribute read against the instance dict (populated only
by the assignments listed in instanceAttributes) and then the class dict,
raising AttributeError when both miss.  The then-branch transcribes the
return the body would produce if the lookup succeeded. -/
def getCurrentFrameInfo (st : FMState) : Except String (Nat × ℚ) :=
  if "wait_duration" ∈ instanceAttributes ∨ "wait_duration" ∈ classAttributes then
    .ok (st.current_frame_index, st.frame_duration)
  else
    .error "AttributeError"

/-! ## Invariants and step lemmas -/

/-- Every frame of the list has the configured output geometry in RGBA. -/
def framesOK (cfg : DisplayConfig) (l : List Img) : Prop :=
  ∀ f ∈ l, f.width = cfg.output_width ∧ f.height = cfg.output_height ∧ f.mode = "RGBA"

/-- State invariant established by construction and preserved by polling. -/
structure FMInv (st : FMState) : Prop where
  frames : framesOK st.config st.background_frames
  idx : st.background_frames = [] ∨ st.current_frame_index < st.background_frames.length
  gifs : st.config.background_type = BackgroundType.gif →
    st.gif_durations.length = st.background_frames.length ∧ st.background_frames ≠ []
  cap : ∀ wc, st.window_capture = some wc →
    wc.target_width = st.config.output_width ∧ wc.target_height = st.config.output_height
  capframes : st.is_window_capture_mode = true → st.background_frames ≠ []

theorem ensureRGBA_width (img : Img) : (ensureRGBA img).width = img.width := by
  unfold ensureRGBA; split <;> rfl

theorem ensureRGBA_height (img : Img) : (ensureRGBA img).height = img.height := by
  unfold ensureRGBA; split <;> rfl

theorem ensureRGBA_mode (img : Img) : (ensureRGBA img).mode = "RGBA" := by
  unfold ensureRGBA; split
  · rfl
  · next h => exact not_ne_iff.mp h

theorem resizeImage_spec (cfg : DisplayConfig) (img : Img) :
    (resizeImage cfg img).width = cfg.output_width ∧
    (resizeImage cfg img).height = cfg.output_height ∧
    (resizeImage cfg img).mode = "RGBA" := by
  unfold resizeImage
  exact ⟨ensureRGBA_width _, ensureRGBA_height _, ensureRGBA_mode _⟩

theorem applyScaling_spec (wc : WindowCapture) (img : Img) :
    (wc.applyScaling img).width = wc.target_width ∧
    (wc.applyScaling img).height = wc.target_height ∧
    (wc.applyScaling img).mode = "RGBA" := by
  unfold WindowCapture.applyScaling
  split_ifs with h1 h2 h3
  · refine ⟨?_, ?_, ensureRGBA_mode _⟩ <;>
      simp [ensureRGBA_width, ensureRGBA_height, Img.crop, Img.resize]
  · refine ⟨?_, ?_, ensureRGBA_mode _⟩ <;>
      simp [ensureRGBA_width, ensureRGBA_height, Img.paste, Img.new]
  · exact absurd (le_antisymm (not_lt.mp h3) (not_lt.mp h2)) (Ne.symm h1)
  · refine ⟨?_, ?_, ensureRGBA_mode _⟩ <;>
      simp [ensureRGBA_width, ensureRGBA_height, Img.resize]

theorem getD_mem_of_lt {α : Type} (d : α) :
    ∀ (l : List α) (i : Nat), i < l.length → l.getD i d ∈ l
  | a :: l, 0, _ => List.mem_cons_self a l
  | a :: l, i + 1, h =>
    List.mem_cons_of_mem a (getD_mem_of_lt d l i (Nat.lt_of_succ_lt_succ h))

/-- One poll changes only frame_start_time, current_frame_index and (in GIF
mode) frame_duration; the index either stays or advances by one modulo the
frame count; the duration either stays or is reloaded from gif_durations at
the current index in GIF mode. -/
theorem step_state (st : FMState) (t : ℚ) (raw : Option Img) :
    ((getCurrentFrame st t raw).1.background_frames = st.background_frames) ∧
    ((getCurrentFrame st t raw).1.config = st.config) ∧
    ((getCurrentFrame st t raw).1.gif_durations = st.gif_durations) ∧
    ((getCurrentFrame st t raw).1.window_capture = st.window_capture) ∧
    ((getCurrentFrame st t raw).1.is_window_capture_mode = st.is_window_capture_mode) ∧
    ((getCurrentFrame st t raw).1.current_metrics = st.current_metrics) ∧
    ((getCurrentFrame st t raw).1.metrics_running = st.metrics_running) ∧
    ((getCurrentFrame st t raw).1.metrics_thread = st.metrics_thread) ∧
    ((getCurrentFrame st t raw).1.current_frame_index = st.current_frame_index ∨
      (getCurrentFrame st t raw).1.current_frame_index
        = (st.current_frame_index + 1) % st.background_frames.length) ∧
    ((getCurrentFrame st t raw).1.frame_duration = st.frame_duration ∨
      (st.config.background_type = BackgroundType.gif ∧
        (getCurrentFrame st t raw).1.frame_duration
          = st.gif_durations.getD ((getCurrentFrame st t raw).1.current_frame_index) 0)) := by
  unfold getCurrentFrame
  cases hB : st.is_window_capture_mode <;> cases hW : st.window_capture <;>
    simp only [] <;> split_ifs <;> rcases raw with _ | r <;>
    simp_all [WindowCapture.captureFrame]

theorem frames_out_ok {st : FMState} (h : FMInv st) {i : Nat}
    (hi : i < st.background_frames.length) :
    ((st.background_frames[i]?).getD Img.fail).width = st.config.output_width ∧
    ((st.background_frames[i]?).getD Img.fail).height = st.config.output_height ∧
    ((st.background_frames[i]?).getD Img.fail).mode = "RGBA" := by
  simp only [List.getElem?_eq_getElem hi, Option.getD_some]
  exact h.frames _ (List.getElem_mem _)

/-- Every buffer a poll returns has the configured output geometry in RGBA,
provided at least one frame was materialized. -/
theorem out_spec (st : FMState) (t : ℚ) (raw : Option Img) (h : FMInv st)
    (hne : st.background_frames ≠ []) :
    (getCurrentFrame st t raw).2.width = st.config.output_width ∧
    (getCurrentFrame st t raw).2.height = st.config.output_height ∧
    (getCurrentFrame st t raw).2.mode = "RGBA" := by
  have hlen : 0 < st.background_frames.length := List.length_pos.mpr hne
  unfold getCurrentFrame
  cases hB : st.is_window_capture_mode <;> cases hW : st.window_capture <;>
    simp only [] <;> split_ifs <;> rcases raw with _ | r <;>
    simp_all [WindowCapture.captureFrame]
  all_goals
    first
    | exact frames_out_ok h (Nat.mod_lt _ hlen)
    | exact frames_out_ok h (h.idx.resolve_left hne)
    | exact h.frames _ (List.getElem_mem _)
    | (rcases h.cap _ hW with ⟨cw, ch⟩
       rcases applyScaling_spec _ r with ⟨aw, ah, am⟩
       exact ⟨aw.trans cw, ah.trans ch, am⟩)

/-- One poll preserves the invariant. -/
theorem fminv_step (st : FMState) (t : ℚ) (raw : Option Img) (h : FMInv st) :
    FMInv ((getCurrentFrame st t raw).1) := by
  obtain ⟨hf, hc, hg, hw, hm, -, -, -, hidx, -⟩ := step_state st t raw
  refine ⟨?_, ?_, ?_, ?_, ?_⟩
  · rw [hf, hc]; exact h.frames
  · rcases hidx with he | he
    · rw [hf, he]; exact h.idx
    · rw [hf, he]
      by_cases hn : st.background_frames = []
      · exact Or.inl hn
      · exact Or.inr (Nat.mod_lt _ (List.length_pos.mpr hn))
  · rw [hc, hg, hf]; exact h.gifs
  · rw [hw, hc]; exact h.cap
  · rw [hm, hf]; exact h.capframes

/-- A poll sequence preserves the invariant. -/
theorem fminv_run (st : FMState) (h : FMInv st) :
    ∀ polls, FMInv ((runPolls st polls).1) := by
  intro polls
  induction polls generalizing st with
  | nil => exact h
  | cons p ps ih => exact ih _ (fminv_step st p.1 p.2 h)

/-- Polling never changes the loaded frame list, the configuration, the
durations, the mode flag or the capture handle. -/
theorem run_fields (st : FMState) (polls : List (ℚ × Option Img)) :
    (runPolls st polls).1.background_frames = st.background_frames ∧
    (runPolls st polls).1.config = st.config ∧
    (runPolls st polls).1.gif_durations = st.gif_durations ∧
    (runPolls st polls).1.is_window_capture_mode = st.is_window_capture_mode ∧
    (runPolls st polls).1.window_capture = st.window_capture := by
  induction polls generalizing st with
  | nil => exact ⟨rfl, rfl, rfl, rfl, rfl⟩
  | cons p ps ih =>
    obtain ⟨hf, hc, hg, hw, hm, -, -, -, -, -⟩ := step_state st p.1 p.2
    obtain ⟨rf, rc, rg, rm, rw_⟩ := ih ((getCurrentFrame st p.1 p.2).1)
    exact ⟨rf.trans hf, rc.trans hc, rg.trans hg, rm.trans hm, rw_.trans hw⟩

/-- Every buffer an arbitrary poll sequence returns has the configured
output geometry in RGBA, provided at least one frame was materialized. -/
theorem run_outputs_ok (st : FMState) (h : FMInv st)
    (hne : st.background_frames ≠ []) (polls : List (ℚ × Option Img)) :
    ∀ img ∈ (runPolls st polls).2,
      img.width = st.config.output_width ∧
      img.height = st.config.output_height ∧ img.mode = "RGBA" := by
  induction polls generalizing st with
  | nil => intro img hmem; cases hmem
  | cons p ps ih =>
    intro img hmem
    obtain ⟨hf, hc, -, -, -, -, -, -, -, -⟩ := step_state st p.1 p.2
    rcases List.mem_cons.mp hmem with he | he
    · subst he; exact out_spec st p.1 p.2 h hne
    · have := ih ((getCurrentFrame st p.1 p.2).1) (fminv_step st p.1 p.2 h)
        (by rw [hf]; exact hne) img he
      rwa [hc] at this

/-- An advance-poll on a non-capture state moves the index forward by one
modulo the frame count and restamps frame_start_time. -/
theorem materialized_advance (st : FMState) (t : ℚ) (raw : Option Img)
    (hmode : st.is_window_capture_mode = false)
    (hdue : st.frame_duration ≤ t - st.frame_start_time) :
    (getCurrentFrame st t raw).1.current_frame_index
      = (st.current_frame_index + 1) % st.background_frames.length ∧
    (getCurrentFrame st t raw).1.frame_start_time = t := by
  unfold getCurrentFrame
  cases hW : st.window_capture <;> rw [hmode] <;> simp only [] <;>
    rw [if_pos hdue] <;> split <;> exact ⟨rfl, rfl⟩

/-- A non-advance poll on a non-capture state leaves index and
frame_start_time unchanged. -/
theorem materialized_hold (st : FMState) (t : ℚ) (raw : Option Img)
    (hmode : st.is_window_capture_mode = false)
    (hlate : ¬ st.frame_duration ≤ t - st.frame_start_time) :
    (getCurrentFrame st t raw).1.current_frame_index = st.current_frame_index ∧
    (getCurrentFrame st t raw).1.frame_start_time = st.frame_start_time := by
  unfold getCurrentFrame
  cases hW : st.window_capture <;> rw [hmode] <;> simp only [] <;>
    rw [if_neg hlate] <;> split <;> exact ⟨rfl, rfl⟩

/-- After any poll in GIF mode (advancing or not), the effective duration is
re-read from gif_durations at the now-current index. -/
theorem gif_duration_tracks_index (st : FMState) (t : ℚ) (raw : Option Img)
    (hmode : st.is_window_capture_mode = false)
    (hgif : st.config.background_type = BackgroundType.gif) :
    (getCurrentFrame st t raw).1.frame_duration
      = st.gif_durations.getD ((getCurrentFrame st t raw).1.current_frame_index) 0 := by
  unfold getCurrentFrame
  cases hW : st.window_capture <;> rw [hmode] <;> simp only [] <;>
    split_ifs <;> simp_all

/-- allDue st ts: each poll time in ts, taken in order, satisfies the
advance condition of the state reached at that point. -/
def allDue (st : FMState) : List ℚ → Bool
  | [] => true
  | t :: ts =>
    decide (st.frame_duration ≤ t - st.frame_start_time)
      && allDue ((getCurrentFrame st t none).1) ts

/-- Running a sequence of advance-polls adds its length to the index,
modulo the frame count. -/
theorem run_advance_count (ts : List ℚ) : ∀ st : FMState, FMInv st →
    st.background_frames ≠ [] →
    st.is_window_capture_mode = false → allDue st ts = true →
    (runPolls st (ts.map (fun t => (t, none)))).1.current_frame_index
      = (st.current_frame_index + ts.length) % st.background_frames.length := by
  induction ts with
  | nil =>
    intro st hInv hne _ _
    simp [runPolls, Nat.mod_eq_of_lt (hInv.idx.resolve_left hne)]
  | cons t ts ih =>
    intro st hInv hne hm hdue
    simp only [allDue, Bool.and_eq_true, decide_eq_true_eq] at hdue
    obtain ⟨h1, h2⟩ := hdue
    obtain ⟨hf, hc, -, -, hmm, -, -, -, -, -⟩ := step_state st t none
    have hidx1 := (materialized_advance st t none hm h1).1
    have hrec := ih ((getCurrentFrame st t none).1) (fminv_step st t none hInv)
      (by rw [hf]; exact hne) (hmm.trans hm) h2
    rw [hidx1, hf] at hrec
    have hstep : (runPolls st ((t, none) :: ts.map (fun u => (u, none)))).1
        = (runPolls ((getCurrentFrame st t none).1) (ts.map (fun u => (u, none)))).1 := rfl
    rw [List.map_cons, hstep, hrec, Nat.mod_add_mod, List.length_cons]
    congr 1
    omega

/-! ## Construction characterizations -/

theorem loadStaticImage_ok (env : Env) (st0 st : FMState)
    (h : loadStaticImage env st0 = .ok st) :
    ∃ img, env.openImage st0.config.background_path = some img ∧
      st = { st0 with background_frames := [resizeImage st0.config img] } := by
  simp only [loadStaticImage] at h
  split_ifs at h
  rcases hI : env.openImage st0.config.background_path with _ | img <;> rw [hI] at h
  · exact absurd h (by simp)
  · simp only [Except.ok.injEq] at h
    exact ⟨img, rfl, h.symm⟩

theorem loadGif_ok (env : Env) (st0 st : FMState)
    (h : loadGif env st0 = .ok st) :
    ∃ d0 rest,
      (env.gifFrames st0.config.background_path).map (fun fr => gifDuration fr.2)
        = d0 :: rest ∧
      st = { st0 with
             background_frames :=
               (env.gifFrames st0.config.background_path).map
                 (fun fr => resizeImage st0.config fr.1)
             gif_durations := d0 :: rest
             frame_duration := d0 } := by
  simp only [loadGif] at h
  split_ifs at h
  rcases hD : (env.gifFrames st0.config.background_path).map (fun fr => gifDuration fr.2)
    with _ | ⟨d0, rest⟩ <;> rw [hD] at h
  · exact absurd h (by simp)
  · simp only [Except.ok.injEq] at h
    exact ⟨d0, rest, hD, h.symm⟩

theorem loadVideo_ok (env : Env) (st0 st : FMState)
    (h : loadVideo env st0 = .ok st) :
    st = { st0 with
           frame_duration :=
             if 0 < env.videoFps st0.config.background_path then
               1 / env.videoFps st0.config.background_path
             else 1 / 30
           background_frames :=
             st0.background_frames
               ++ (env.videoFrames st0.config.background_path).map (resizeImage st0.config) } := by
  simp only [loadVideo] at h
  split_ifs at h
  all_goals simp only [Except.ok.injEq] at h
  all_goals first
    | (rw [if_pos (by assumption : (0 : ℚ) < env.videoFps st0.config.background_path)]
       exact h.symm)
    | (rw [if_neg (by assumption : ¬ (0 : ℚ) < env.videoFps st0.config.background_path)]
       exact h.symm)

theorem openAll_ok (env : Env) (cfg : DisplayConfig) :
    ∀ (files : List String) (imgs : List Img), openAll env cfg files = .ok imgs →
      ∀ f ∈ imgs, ∃ src, f = resizeImage cfg src := by
  intro files
  induction files with
  | nil =>
    intro imgs h f hf
    unfold openAll at h
    cases Except.ok.injEq (α := List Img) (ε := String) _ _ ▸ h
    cases hf
  | cons p ps ih =>
    intro imgs h f hf
    unfold openAll at h
    rcases hI : env.openImage p with _ | img <;> rw [hI] at h
    · exact absurd h (by simp)
    · rcases hR : openAll env cfg ps with e | rest <;> rw [hR] at h
      · exact absurd h (by simp [Except.map])
      · simp only [Except.map, Except.ok.injEq] at h
        subst h
        rcases List.mem_cons.mp hf with he | he
        · exact ⟨img, he⟩
        · exact ih rest hR f he

theorem loadImageCollection_ok (env : Env) (st0 st : FMState)
    (h : loadImageCollection env st0 = .ok st) :
    ∃ imgs,
      openAll env st0.config (env.collectionFiles st0.config.background_path) = .ok imgs ∧
      st = { st0 with background_frames := st0.background_frames ++ imgs } := by
  simp only [loadImageCollection] at h
  split_ifs at h
  rcases hO : openAll env st0.config (env.collectionFiles st0.config.background_path)
    with e | imgs <;> rw [hO] at h
  · exact absurd h (by simp [Except.map])
  · simp only [Except.map, Except.ok.injEq] at h
    exact ⟨imgs, rfl, h.symm⟩

theorem loadWindowCapture_ok (env : Env) (st0 st : FMState)
    (h : loadWindowCapture env st0 = .ok st) :
    ∃ title, st0.config.window_title = some title ∧
      st = { st0 with
             window_capture := some (WindowCapture.init title st0.config.output_width
               st0.config.output_height st0.config.capture_fps)
             is_window_capture_mode := true
             frame_duration := 1 / (st0.config.capture_fps : ℚ)
             background_frames :=
               [Img.new "RGBA" st0.config.output_width st0.config.output_height
                 ⟨0, 0, 0, 255⟩] } := by
  simp only [loadWindowCapture] at h
  rcases hT : st0.config.window_title with _ | title <;> rw [hT] at h <;>
    simp only [] at h <;> split_ifs at h <;>
    simp only [Except.ok.injEq] at h
  exact ⟨title, rfl, h.symm⟩

/-- fmInit succeeds exactly when, after the metrics branch, _load_background
succeeds from a pre-state with empty frame lists and index 0. -/
theorem fmInit_ok (env : Env) (t0 : ℚ) (cfg : DisplayConfig) (st : FMState)
    (h : fmInit env t0 cfg = .ok st) :
    ∃ st0, loadBackground env t0 st0 = .ok st ∧
      st0.config = cfg ∧ st0.background_frames = [] ∧ st0.gif_durations = [] ∧
      st0.current_frame_index = 0 ∧ st0.window_capture = none ∧
      st0.is_window_capture_mode = false ∧
      st0.frame_duration = DEFAULT_FRAME_DURATION := by
  unfold fmInit at h
  split_ifs at h
  · rcases hm : getCurrentMetric env with e | m <;> rw [hm] at h <;>
      simp only [Except.bind] at h
    · exact absurd h (by simp)
    · exact ⟨_, h, rfl, rfl, rfl, rfl, rfl, rfl, rfl⟩
  · simp only [Except.bind] at h
    exact ⟨_, h, rfl, rfl, rfl, rfl, rfl, rfl, rfl⟩

theorem framesOK_map {cfg : DisplayConfig} {l : List Img}
    (h : ∀ f ∈ l, ∃ src, f = resizeImage cfg src) : framesOK cfg l := by
  intro f hf
  obtain ⟨src, hs⟩ := h f hf
  subst hs
  exact resizeImage_spec cfg src

theorem framesOK_black (cfg : DisplayConfig) (c : Pixel) :
    framesOK cfg [Img.new "RGBA" cfg.output_width cfg.output_height c] := by
  intro f hf
  rw [List.mem_singleton] at hf
  subst hf
  exact ⟨rfl, rfl, rfl⟩

/-- A successful construction establishes the invariant: the state's
configuration is the given one, the index starts at 0, the clock is stamped
with the load time, and capture mode is entered only for the
window-capture kind. -/
theorem fmInit_inv (env : Env) (t0 : ℚ) (cfg : DisplayConfig) (st : FMState)
    (h : fmInit env t0 cfg = .ok st) :
    FMInv st ∧ st.config = cfg ∧ st.current_frame_index = 0 ∧
    st.frame_start_time = t0 ∧
    (cfg.background_type ≠ BackgroundType.window_capture →
      st.is_window_capture_mode = false) := by
  obtain ⟨st0, hload, hc, hbf, hgd, hci, hwc, hwm, hfd⟩ := fmInit_ok env t0 cfg st h
  unfold loadBackground at hload
  rw [hc] at hload
  rcases hbt : cfg.background_type with _ | _ | _ | _ | _ <;> rw [hbt] at hload <;>
    simp only [] at hload
  case image =>
    rcases hres : loadStaticImage env st0 with e | st1 <;> rw [hres] at hload <;>
      simp only [Except.map, Except.ok.injEq] at hload <;>
      first
      | exact Except.noConfusion hload
      | skip
    obtain ⟨img, hI, hst1⟩ := loadStaticImage_ok env st0 st1 hres
    subst hst1; subst hload
    dsimp only
    refine ⟨⟨?_, ?_, ?_, ?_, ?_⟩, hc, hci, rfl, fun _ => hwm⟩
    · rw [hc]
      exact framesOK_map (by
        intro f hf
        rw [List.mem_singleton] at hf
        exact ⟨img, by rw [hf]⟩)
    · exact Or.inr (by simp [hci])
    · intro hg; rw [hc, hbt] at hg; cases hg
    · intro wc hwceq; rw [hwc] at hwceq; cases hwceq
    · intro hm; rw [hwm] at hm; cases hm
  case gif =>
    rcases hres : loadGif env st0 with e | st1 <;> rw [hres] at hload <;>
      simp only [Except.map, Except.ok.injEq] at hload <;>
      first
      | exact Except.noConfusion hload
      | skip
    obtain ⟨d0, rest, hD, hst1⟩ := loadGif_ok env st0 st1 hres
    subst hst1; subst hload
    dsimp only
    have hlen := congrArg List.length hD
    rw [List.length_map] at hlen
    refine ⟨⟨?_, ?_, ?_, ?_, ?_⟩, hc, hci, rfl, fun _ => hwm⟩
    · rw [hc]
      exact framesOK_map (by
        intro f hf
        rw [List.mem_map] at hf
        obtain ⟨fr, -, hfr⟩ := hf
        exact ⟨fr.1, by rw [← hfr]⟩)
    · refine Or.inr ?_
      rw [hci]
      simp only [List.length_map]
      rw [List.length_cons] at hlen
      omega
    · intro _
      constructor
      · simp only [List.length_map]
        rw [hlen]
      · simp only [ne_eq, List.map_eq_nil_iff]
        intro hnil
        rw [hnil] at hD
        cases hD
    · intro wc hwceq; rw [hwc] at hwceq; cases hwceq
    · intro hm; rw [hwm] at hm; cases hm
  case video =>
    split_ifs at hload
    · rcases hres : loadVideo env st0 with e | st1 <;> rw [hres] at hload <;>
        simp only [Except.map, Except.ok.injEq] at hload <;>
        first
        | exact Except.noConfusion hload
        | skip
      have hst1 := loadVideo_ok env st0 st1 hres
      subst hst1; subst hload
      dsimp only
      refine ⟨⟨?_, ?_, ?_, ?_, ?_⟩, hc, hci, rfl, fun _ => hwm⟩
      · rw [hc, hbf]
        exact framesOK_map (by
          intro f hf
          simp only [List.nil_append, List.mem_map] at hf
          obtain ⟨src, -, hfr⟩ := hf
          exact ⟨src, by rw [← hfr]⟩)
      · rw [hbf]
        by_cases hn : (env.videoFrames st0.config.background_path).map (resizeImage st0.config) = []
        · exact Or.inl (by simp [hn])
        · refine Or.inr ?_
          rw [hci]
          simp only [List.nil_append]
          exact List.length_pos.mpr hn
      · intro hg; rw [hc, hbt] at hg; cases hg
      · intro wc hwceq; rw [hwc] at hwceq; cases hwceq
      · intro hm; rw [hwm] at hm; cases hm
    · rcases hres : loadStaticImage env st0 with e | st1 <;> rw [hres] at hload <;>
        simp only [Except.map, Except.ok.injEq] at hload <;>
        first
        | exact Except.noConfusion hload
        | skip
      obtain ⟨img, hI, hst1⟩ := loadStaticImage_ok env st0 st1 hres
      subst hst1; subst hload
      dsimp only
      refine ⟨⟨?_, ?_, ?_, ?_, ?_⟩, hc, hci, rfl, fun _ => hwm⟩
      · rw [hc]
        exact framesOK_map (by
          intro f hf
          rw [List.mem_singleton] at hf
          exact ⟨img, by rw [hf]⟩)
      · exact Or.inr (by simp [hci])
      · intro hg; rw [hc, hbt] at hg; cases hg
      · intro wc hwceq; rw [hwc] at hwceq; cases hwceq
      · intro hm; rw [hwm] at hm; cases hm
  case image_collection =>
    rcases hres : loadImageCollection env st0 with e | st1 <;> rw [hres] at hload <;>
      simp only [Except.map, Except.ok.injEq] at hload <;>
      first
      | exact Except.noConfusion hload
      | skip
    obtain ⟨imgs, hO, hst1⟩ := loadImageCollection_ok env st0 st1 hres
    subst hst1; subst hload
    dsimp only
    refine ⟨⟨?_, ?_, ?_, ?_, ?_⟩, hc, hci, rfl, fun _ => hwm⟩
    · rw [hc, hbf]
      exact framesOK_map (by
        intro f hf
        simp only [List.nil_append] at hf
        obtain ⟨src, hfr⟩ := openAll_ok env st0.config _ imgs hO f hf
        exact ⟨src, by rw [hfr, hc]⟩)
    · rw [hbf]
      by_cases hn : imgs = []
      · exact Or.inl (by simp [hn])
      · refine Or.inr ?_
        rw [hci]
        simp only [List.nil_append]
        exact List.length_pos.mpr hn
    · intro hg; rw [hc, hbt] at hg; cases hg
    · intro wc hwceq; rw [hwc] at hwceq; cases hwceq
    · intro hm; rw [hwm] at hm; cases hm
  case window_capture =>
    rcases hres : loadWindowCapture env st0 with e | st1 <;> rw [hres] at hload <;>
      simp only [Except.map, Except.ok.injEq] at hload <;>
      first
      | exact Except.noConfusion hload
      | skip
    obtain ⟨title, hT, hst1⟩ := loadWindowCapture_ok env st0 st1 hres
    subst hst1; subst hload
    dsimp only
    refine ⟨⟨?_, ?_, ?_, ?_, ?_⟩, hc, hci, rfl, fun hne => absurd rfl hne⟩
    · rw [hc]
      have := framesOK_black cfg ⟨0, 0, 0, 255⟩
      rw [← hc]
      intro f hf
      rw [List.mem_singleton] at hf
      subst hf
      exact ⟨rfl, rfl, rfl⟩
    · exact Or.inr (by simp [hci])
    · intro hg; rw [hc, hbt] at hg; cases hg
    · intro wc hwceq
      simp only [Option.some.injEq] at hwceq
      subst hwceq
      exact ⟨rfl, rfl⟩
    · intro _; simp

/-! ## Concrete fixtures for witnesses and counterexamples -/

/-- Extract the state of a successful construction (a fixture helper). -/
def okOr (r : Except String FMState) (d : FMState) : FMState :=
  match r with
  | .ok s => s
  | .error _ => d

/-- A sample raw source image (RGB, 64 × 48). -/
def wImg : Img := ⟨64, 48, "RGB", fun _ _ => ⟨10, 20, 30, 0⟩⟩

/-- A sample all-white RGBA raw capture. -/
def whiteImg : Img := ⟨100, 80, "RGBA", fun _ _ => ⟨255, 255, 255, 255⟩⟩

/-- A benign environment: every path exists and decodes to wImg, OpenCV and
the capture backends are present, metric collectors answer with no values. -/
def baseEnv : Env :=
  { hasOpenCV := true
    hasWindowCapture := true
    captureBackendAvailable := true
    pathExists := fun _ => true
    isDir := fun _ => true
    openImage := fun _ => some wImg
    gifFrames := fun _ => []
    videoOpens := fun _ => true
    videoFps := fun _ => 30
    videoFrames := fun _ => []
    collectionFiles := fun _ => []
    cpuData := .ok (fun _ => none)
    gpuData := .ok (fun _ => none) }

/-- A video configuration whose file opens but decodes zero frames (OpenCV
reports a frame count of 0, or the first read fails): construction succeeds
with an empty frame list. -/
def cexVideoCfg : DisplayConfig :=
  { background_path := "clip.mp4", background_type := .video }

def cexVideoSt : FMState := okOr (fmInit baseEnv 0 cexVideoCfg) (initState cexVideoCfg)

/-- A static-image configuration for witnesses. -/
def wImageCfg : DisplayConfig :=
  { background_path := "bg.png", background_type := .image }

def wImageSt : FMState := okOr (fmInit baseEnv 0 wImageCfg) (initState wImageCfg)

/-! ## C1 -/

/-- C1 (counterexample): a Video configuration whose file opens but yields
zero decoded frames constructs successfully, yet the first poll cannot
return an output-sized buffer — Python raises IndexError on the empty frame
list (the embedding returns the 0 × 0 sentinel, not a 320 × 240 buffer). -/
theorem c1_buffer_size_counterexample :
    fmInit baseEnv 0 cexVideoCfg = .ok cexVideoSt ∧
    cexVideoSt.background_frames = [] ∧
    (getCurrentFrame cexVideoSt 1 none).2.width = 0 ∧
    cexVideoCfg.output_width = 320 := by
  refine ⟨by with_unfolding_all rfl, by with_unfolding_all rfl, ?_, rfl⟩
  with_unfolding_all rfl

/-- C1 (amended): for every successfully constructed FrameManager whose
materialized frame list is nonempty (always true for static images, GIFs,
image collections and window capture; true for videos whenever at least one
frame decodes), every poll of every poll sequence returns a buffer of
exactly output_width × output_height in RGBA mode, for all five background
kinds. -/
theorem c1_buffer_size_amended (env : Env) (t0 : ℚ) (cfg : DisplayConfig)
    (st : FMState) (h : fmInit env t0 cfg = .ok st)
    (hne : st.background_frames ≠ []) (polls : List (ℚ × Option Img)) :
    ∀ img ∈ (runPolls st polls).2,
      img.width = cfg.output_width ∧ img.height = cfg.output_height ∧
      img.mode = "RGBA" := by
  obtain ⟨hInv, hcfg, -, -, -⟩ := fmInit_inv env t0 cfg st h
  have hrun := run_outputs_ok st hInv hne polls
  rwa [hcfg] at hrun

/-- C1 (witness): the amended theorem at a concrete static-image
configuration and a two-poll sequence. -/
theorem c1_buffer_size_amended_witness :
    fmInit baseEnv 0 wImageCfg = .ok wImageSt ∧
    wImageSt.background_frames ≠ [] ∧
    (∀ img ∈ (runPolls wImageSt [(0, none), (5, none)]).2,
      img.width = wImageCfg.output_width ∧ img.height = wImageCfg.output_height ∧
      img.mode = "RGBA") := by
  have hok : fmInit baseEnv 0 wImageCfg = .ok wImageSt := by with_unfolding_all rfl
  have hne : wImageSt.background_frames ≠ [] := by
    intro hcon
    have hl : wImageSt.background_frames.length = 1 := by with_unfolding_all rfl
    rw [hcon] at hl
    cases hl
  exact ⟨hok, hne, c1_buffer_size_amended baseEnv 0 wImageCfg wImageSt hok hne _⟩

/-! ## C2 -/

/-- C2 (counterexample): for the zero-frame video source (frame count
F = 0), successfully constructed, the frame index is not within 0 ≤ index
< F after a poll — Python in fact raises ZeroDivisionError on `% 0` during
that poll. -/
theorem c2_index_loop_counterexample :
    fmInit baseEnv 0 cexVideoCfg = .ok cexVideoSt ∧
    cexVideoSt.is_window_capture_mode = false ∧
    ¬ ((getCurrentFrame cexVideoSt 1 none).1.current_frame_index
        < cexVideoSt.background_frames.length) := by
  refine ⟨by with_unfolding_all rfl, by with_unfolding_all rfl, ?_⟩
  with_unfolding_all decide

/-- C2 (amended): for every successfully constructed non-capture source
with frame count F ≥ 1: the index stays in 0 ≤ index < F after every poll
sequence; an advance-poll maps index i to (i+1) mod F, so the last index
wraps to 0; and any run of advance-polls spaced at least the current frame
duration apart adds its length to the index mod F — in particular after
every multiple of F advance-polls the index is back at 0, indefinitely. -/
theorem c2_index_loop_amended (env : Env) (t0 : ℚ) (cfg : DisplayConfig)
    (st : FMState) (h : fmInit env t0 cfg = .ok st)
    (hmode : st.is_window_capture_mode = false)
    (hF : 0 < st.background_frames.length) :
    (∀ polls, (runPolls st polls).1.current_frame_index
      < st.background_frames.length) ∧
    (∀ t raw, st.frame_duration ≤ t - st.frame_start_time →
      (getCurrentFrame st t raw).1.current_frame_index
        = (st.current_frame_index + 1) % st.background_frames.length) ∧
    (∀ t raw, st.frame_duration ≤ t - st.frame_start_time →
      st.current_frame_index = st.background_frames.length - 1 →
      (getCurrentFrame st t raw).1.current_frame_index = 0) ∧
    (∀ ts, allDue st ts = true →
      (runPolls st (ts.map (fun u => (u, none)))).1.current_frame_index
        = (st.current_frame_index + ts.length) % st.background_frames.length) ∧
    (∀ k ts, allDue st ts = true →
      ts.length = k * st.background_frames.length →
      (runPolls st (ts.map (fun u => (u, none)))).1.current_frame_index = 0) := by
  obtain ⟨hInv, -, hidx0, -, -⟩ := fmInit_inv env t0 cfg st h
  have hne : st.background_frames ≠ [] := List.length_pos.mp hF
  refine ⟨?_, ?_, ?_, ?_, ?_⟩
  · intro polls
    have hI := fminv_run st hInv polls
    obtain ⟨hf, -, -, -, -⟩ := run_fields st polls
    have := hI.idx.resolve_left (by rw [hf]; exact hne)
    rwa [hf] at this
  · intro t raw hdue
    exact (materialized_advance st t raw hmode hdue).1
  · intro t raw hdue hlast
    rw [(materialized_advance st t raw hmode hdue).1, hlast,
      Nat.sub_add_cancel hF, Nat.mod_self]
  · intro ts hts
    exact run_advance_count ts st hInv hne hmode hts
  · intro k ts hts hlen
    rw [run_advance_count ts st hInv hne hmode hts, hidx0, hlen, Nat.zero_add,
      Nat.mul_mod_left]

/-- An animated-image environment: three frames with authored durations
100 ms, 250 ms and 50 ms. -/
def wGifEnv : Env :=
  { baseEnv with
    gifFrames := fun _ => [(wImg, some 100), (wImg, some 250), (wImg, some 50)] }

def wGifCfg : DisplayConfig :=
  { background_path := "anim.gif", background_type := .gif }

def wGifSt : FMState := okOr (fmInit wGifEnv 0 wGifCfg) (initState wGifCfg)

/-- C2 (witness): the amended theorem at the three-frame GIF fixture, with
three advance-polls (one full cycle: 3 = 1 × F). -/
theorem c2_index_loop_amended_witness :
    fmInit wGifEnv 0 wGifCfg = .ok wGifSt ∧
    wGifSt.is_window_capture_mode = false ∧
    0 < wGifSt.background_frames.length ∧
    allDue wGifSt [1, 2, 3] = true ∧
    [(1 : ℚ), 2, 3].length = 1 * wGifSt.background_frames.length ∧
    (runPolls wGifSt ([(1 : ℚ), 2, 3].map (fun u => (u, none)))).1.current_frame_index
      = 0 := by
  have hok : fmInit wGifEnv 0 wGifCfg = .ok wGifSt := by with_unfolding_all rfl
  have hmode : wGifSt.is_window_capture_mode = false := by with_unfolding_all rfl
  have hF : 0 < wGifSt.background_frames.length := by with_unfolding_all decide
  have hdue : allDue wGifSt [1, 2, 3] = true := by with_unfolding_all rfl
  have hlen : [(1 : ℚ), 2, 3].length = 1 * wGifSt.background_frames.length := by
    with_unfolding_all rfl
  exact ⟨hok, hmode, hF, hdue, hlen,
    (c2_index_loop_amended wGifEnv 0 wGifCfg wGifSt hok hmode hF).2.2.2.2 1 _ hdue hlen⟩

/-! ## C3 -/

/-- C3: the scale transform of WindowCapture (with the constructor's
target size (tw, th) and scale factor s > 0) matches the specified
resize / center-crop / center-pad-on-black behavior: the result is always
RGBA; at s = 1 it is exactly the direct resize to (tw, th); at s > 1 it is
exactly the resize to the int-truncated (tw·s, th·s) followed by the
center crop at floor-division origin; at s < 1 the result is (tw, th) and
every pixel outside the centered paste box is opaque black; and at s = 1/2
with output 320 × 240 the scaled size is 160 × 120 with paste origin
(80, 60). -/
theorem c3_scale_transform (tw th fps : Nat) (s : ℚ) (title : String) (img : Img)
    (hpos : 0 < s) :
    ((WindowCapture.init title tw th fps s).applyScaling img).mode = "RGBA" ∧
    (s = 1 → (WindowCapture.init title tw th fps s).applyScaling img
      = ensureRGBA (img.resize tw th)) ∧
    (1 < s → (WindowCapture.init title tw th fps s).applyScaling img
      = ensureRGBA ((img.resize (pyInt ((tw : ℚ) * s)) (pyInt ((th : ℚ) * s))).crop
          ((pyInt ((tw : ℚ) * s) - tw) / 2) ((pyInt ((th : ℚ) * s) - th) / 2)
          ((pyInt ((tw : ℚ) * s) - tw) / 2 + tw)
          ((pyInt ((th : ℚ) * s) - th) / 2 + th))) ∧
    (s < 1 →
      ((WindowCapture.init title tw th fps s).applyScaling img).width = tw ∧
      ((WindowCapture.init title tw th fps s).applyScaling img).height = th ∧
      (∀ x y, x < tw → y < th →
        (x < (tw - pyInt ((tw : ℚ) * s)) / 2 ∨
          (tw - pyInt ((tw : ℚ) * s)) / 2 + pyInt ((tw : ℚ) * s) ≤ x ∨
          y < (th - pyInt ((th : ℚ) * s)) / 2 ∨
          (th - pyInt ((th : ℚ) * s)) / 2 + pyInt ((th : ℚ) * s) ≤ y) →
        ((WindowCapture.init title tw th fps s).applyScaling img).px x y
          = ⟨0, 0, 0, 255⟩)) ∧
    (s = 1 / 2 → tw = 320 → th = 240 →
      pyInt ((tw : ℚ) * s) = 160 ∧ pyInt ((th : ℚ) * s) = 120 ∧
      (tw - pyInt ((tw : ℚ) * s)) / 2 = 80 ∧
      (th - pyInt ((th : ℚ) * s)) / 2 = 60) := by
  refine ⟨(applyScaling_spec _ img).2.2, ?_, ?_, ?_, ?_⟩
  · intro hs
    subst hs
    simp only [WindowCapture.applyScaling]
    rw [if_neg (by simp [WindowCapture.init])]
    rfl
  · intro hs
    simp only [WindowCapture.applyScaling]
    split_ifs with h1 h2 h3
    · rfl
    · exact absurd hs h2
    · exact absurd hs h2
    · have hs1 : s = 1 := not_ne_iff.mp h1
      rw [hs1] at hs
      exact absurd hs (lt_irrefl 1)
  · intro hs
    have hform : (WindowCapture.init title tw th fps s).applyScaling img
        = ensureRGBA ((Img.new "RGBA" tw th ⟨0, 0, 0, 255⟩).paste
            (img.resize (pyInt ((tw : ℚ) * s)) (pyInt ((th : ℚ) * s)))
            ((tw - pyInt ((tw : ℚ) * s)) / 2) ((th - pyInt ((th : ℚ) * s)) / 2)) := by
      simp only [WindowCapture.applyScaling]
      split_ifs with h1 h2 h3
      · exact absurd h2 (lt_asymm hs)
      · rfl
      · exact absurd hs h3
      · have hs1 : s = 1 := not_ne_iff.mp h1
        rw [hs1] at hs
        exact absurd hs (lt_irrefl 1)
    refine ⟨(applyScaling_spec _ img).1, (applyScaling_spec _ img).2.1, ?_⟩
    intro x y hx hy hout
    rw [hform]
    unfold ensureRGBA
    rw [if_neg (by simp [Img.paste, Img.new])]
    simp only [Img.paste, Img.new, Img.resize]
    rw [if_neg]
    · rintro ⟨c1, c2, c3, c4⟩
      rcases hout with hcase | hcase | hcase | hcase <;> omega
  · intro hs htw hth
    subst hs; subst htw; subst hth
    refine ⟨?_, ?_, ?_, ?_⟩ <;> with_unfolding_all decide

set_option maxRecDepth 8000 in
/-- C3 (witness): the scale-transform theorem at s = 1/2, output 320 × 240,
applied to a concrete raw image. -/
theorem c3_scale_transform_witness :
    (0 : ℚ) < 1 / 2 ∧
    (((WindowCapture.init "w" 320 240 30 (1 / 2)).applyScaling whiteImg).mode
        = "RGBA" ∧
      ((1 : ℚ) / 2 = 1 →
        (WindowCapture.init "w" 320 240 30 (1 / 2)).applyScaling whiteImg
          = ensureRGBA (whiteImg.resize 320 240)) ∧
      (1 < (1 : ℚ) / 2 →
        (WindowCapture.init "w" 320 240 30 (1 / 2)).applyScaling whiteImg
          = ensureRGBA ((whiteImg.resize (pyInt ((320 : ℚ) * (1 / 2)))
              (pyInt ((240 : ℚ) * (1 / 2)))).crop
              ((pyInt ((320 : ℚ) * (1 / 2)) - 320) / 2)
              ((pyInt ((240 : ℚ) * (1 / 2)) - 240) / 2)
              ((pyInt ((320 : ℚ) * (1 / 2)) - 320) / 2 + 320)
              ((pyInt ((240 : ℚ) * (1 / 2)) - 240) / 2 + 240))) ∧
      ((1 : ℚ) / 2 < 1 →
        ((WindowCapture.init "w" 320 240 30 (1 / 2)).applyScaling whiteImg).width
            = 320 ∧
        ((WindowCapture.init "w" 320 240 30 (1 / 2)).applyScaling whiteImg).height
            = 240 ∧
        (∀ x y, x < 320 → y < 240 →
          (x < (320 - pyInt ((320 : ℚ) * (1 / 2))) / 2 ∨
            (320 - pyInt ((320 : ℚ) * (1 / 2))) / 2 + pyInt ((320 : ℚ) * (1 / 2)) ≤ x ∨
            y < (240 - pyInt ((240 : ℚ) * (1 / 2))) / 2 ∨
            (240 - pyInt ((240 : ℚ) * (1 / 2))) / 2 + pyInt ((240 : ℚ) * (1 / 2)) ≤ y) →
          ((WindowCapture.init "w" 320 240 30 (1 / 2)).applyScaling whiteImg).px x y
            = ⟨0, 0, 0, 255⟩)) ∧
      ((1 : ℚ) / 2 = 1 / 2 → 320 = 320 → 240 = 240 →
        pyInt ((320 : ℚ) * (1 / 2)) = 160 ∧ pyInt ((240 : ℚ) * (1 / 2)) = 120 ∧
        (320 - pyInt ((320 : ℚ) * (1 / 2))) / 2 = 80 ∧
        (240 - pyInt ((240 : ℚ) * (1 / 2))) / 2 = 60)) :=
  ⟨by with_unfolding_all decide,
    c3_scale_transform 320 240 30 (1 / 2) "w" whiteImg (by with_unfolding_all decide)⟩

/-! ## C4 -/

/-- C4: in GIF mode, after an advance-poll the new state's index is
(i+1) mod F and its effective duration is gif_durations at that new index —
the newly-entered frame's own authored duration, not the previous one's. -/
theorem c4_gif_duration_after_advance (st : FMState) (t : ℚ) (raw : Option Img)
    (hmode : st.is_window_capture_mode = false)
    (hgif : st.config.background_type = BackgroundType.gif)
    (hdue : st.frame_duration ≤ t - st.frame_start_time) :
    (getCurrentFrame st t raw).1.current_frame_index
      = (st.current_frame_index + 1) % st.background_frames.length ∧
    (getCurrentFrame st t raw).1.frame_duration
      = st.gif_durations.getD
          ((st.current_frame_index + 1) % st.background_frames.length) 0 := by
  have hadv := (materialized_advance st t raw hmode hdue).1
  have hdur := gif_duration_tracks_index st t raw hmode hgif
  rw [hadv] at hdur
  exact ⟨hadv, hdur⟩

def wGifSt1 : FMState := (getCurrentFrame wGifSt 1 none).1

def wGifSt2 : FMState := (getCurrentFrame wGifSt1 2 none).1

def wGifSt3 : FMState := (getCurrentFrame wGifSt2 3 none).1

/-- C4 (witness): for the three-frame GIF with authored durations 0.10 s,
0.25 s, 0.05 s, the theorem applied at the first advance, and the computed
effective durations after each of the three advances: 1/4, 1/20, 1/10 —
each the newly-entered frame's value (the initial duration being 1/10). -/
theorem c4_gif_duration_after_advance_witness :
    wGifSt.is_window_capture_mode = false ∧
    wGifSt.config.background_type = BackgroundType.gif ∧
    wGifSt.frame_duration ≤ 1 - wGifSt.frame_start_time ∧
    (wGifSt1.current_frame_index
        = (wGifSt.current_frame_index + 1) % wGifSt.background_frames.length ∧
      wGifSt1.frame_duration
        = wGifSt.gif_durations.getD
            ((wGifSt.current_frame_index + 1) % wGifSt.background_frames.length) 0) ∧
    wGifSt.frame_duration = 1 / 10 ∧
    wGifSt1.frame_duration = 1 / 4 ∧
    wGifSt2.frame_duration = 1 / 20 ∧
    wGifSt3.frame_duration = 1 / 10 := by
  refine ⟨by with_unfolding_all rfl, by with_unfolding_all rfl,
    by with_unfolding_all decide,
    c4_gif_duration_after_advance wGifSt 1 none (by with_unfolding_all rfl)
      (by with_unfolding_all rfl) (by with_unfolding_all decide),
    ?_, ?_, ?_, ?_⟩ <;> with_unfolding_all decide

/-! ## C5 -/

/-- The duration data that stays positive across polling. -/
def DurPos (st : FMState) : Prop :=
  0 < st.frame_duration ∧ ∀ d ∈ st.gif_durations, 0 < d

theorem durpos_step (st : FMState) (t : ℚ) (raw : Option Img)
    (hInv : FMInv st) (hd : DurPos st) : DurPos ((getCurrentFrame st t raw).1) := by
  obtain ⟨hf, -, hg, -, -, -, -, -, -, hdur⟩ := step_state st t raw
  constructor
  · rcases hdur with he | ⟨hgif, he⟩
    · rw [he]; exact hd.1
    · rw [he]
      have hInv' := fminv_step st t raw hInv
      have hgl := hInv.gifs hgif
      have hidx' : (getCurrentFrame st t raw).1.current_frame_index
          < st.background_frames.length := by
        have := hInv'.idx.resolve_left (by rw [hf]; exact hgl.2)
        rwa [hf] at this
      have hlt : (getCurrentFrame st t raw).1.current_frame_index
          < st.gif_durations.length := by rw [hgl.1]; exact hidx'
      exact hd.2 _ (getD_mem_of_lt 0 _ _ hlt)
  · rw [hg]; exact hd.2

theorem durpos_run (polls : List (ℚ × Option Img)) : ∀ st : FMState,
    FMInv st → DurPos st → DurPos ((runPolls st polls).1) := by
  induction polls with
  | nil => intro st _ hd; exact hd
  | cons p ps ih =>
    intro st hInv hd
    exact ih _ (fminv_step st p.1 p.2 hInv) (durpos_step st p.1 p.2 hInv hd)

theorem gifDuration_pos (o : Option Nat) (h : ∀ d, o = some d → 0 < d) :
    0 < gifDuration o := by
  cases o with
  | none =>
    unfold gifDuration
    norm_num
  | some d =>
    unfold gifDuration
    have hd := h d rfl
    have : (0 : ℚ) < (d : ℚ) := by exact_mod_cast hd
    positivity

/-- Construction yields positive durations, provided every authored GIF
frame duration is positive and (for window capture) capture_fps is the
positive integer the configuration contract requires. -/
theorem fmInit_durpos (env : Env) (t0 : ℚ) (cfg : DisplayConfig) (st : FMState)
    (h : fmInit env t0 cfg = .ok st)
    (hgif : ∀ fr ∈ env.gifFrames cfg.background_path, ∀ d, fr.2 = some d → 0 < d)
    (hfps : 0 < cfg.capture_fps) : DurPos st := by
  obtain ⟨st0, hload, hc, hbf, hgd, hci, hwc, hwm, hfd⟩ := fmInit_ok env t0 cfg st h
  unfold loadBackground at hload
  rw [hc] at hload
  have hdefault : (0 : ℚ) < DEFAULT_FRAME_DURATION := by
    unfold DEFAULT_FRAME_DURATION; norm_num
  rcases hbt : cfg.background_type with _ | _ | _ | _ | _ <;> rw [hbt] at hload <;>
    simp only [] at hload
  case image =>
    rcases hres : loadStaticImage env st0 with e | st1 <;> rw [hres] at hload <;>
      simp only [Except.map, Except.ok.injEq] at hload <;>
      first
      | exact Except.noConfusion hload
      | skip
    obtain ⟨img, -, hst1⟩ := loadStaticImage_ok env st0 st1 hres
    subst hst1; subst hload
    dsimp only
    exact ⟨lt_of_lt_of_eq hdefault hfd.symm,
      by
        intro d hdm
        have hdm2 : d ∈ st0.gif_durations := hdm
        rw [hgd] at hdm2
        cases hdm2⟩
  case gif =>
    rcases hres : loadGif env st0 with e | st1 <;> rw [hres] at hload <;>
      simp only [Except.map, Except.ok.injEq] at hload <;>
      first
      | exact Except.noConfusion hload
      | skip
    obtain ⟨d0, rest, hD, hst1⟩ := loadGif_ok env st0 st1 hres
    subst hst1; subst hload
    dsimp only
    have hall : ∀ d ∈ (d0 :: rest), 0 < d := by
      rw [← hD]
      intro d hdm
      rw [List.mem_map] at hdm
      obtain ⟨fr, hfr, hde⟩ := hdm
      rw [← hde]
      refine gifDuration_pos fr.2 ?_
      intro dd hdd
      refine hgif fr ?_ dd hdd
      rw [← hc]
      exact hfr
    exact ⟨hall d0 (List.mem_cons_self d0 rest), hall⟩
  case video =>
    split_ifs at hload
    · rcases hres : loadVideo env st0 with e | st1 <;> rw [hres] at hload <;>
        simp only [Except.map, Except.ok.injEq] at hload <;>
        first
        | exact Except.noConfusion hload
        | skip
      have hst1 := loadVideo_ok env st0 st1 hres
      subst hst1; subst hload
      dsimp only
      refine ⟨?_, by
      intro d hdm
      have hdm2 : d ∈ st0.gif_durations := hdm
      rw [hgd] at hdm2
      cases hdm2⟩
      split_ifs with hv
      · exact one_div_pos.mpr hv
      · norm_num
    · rcases hres : loadStaticImage env st0 with e | st1 <;> rw [hres] at hload <;>
        simp only [Except.map, Except.ok.injEq] at hload <;>
        first
        | exact Except.noConfusion hload
        | skip
      obtain ⟨img, -, hst1⟩ := loadStaticImage_ok env st0 st1 hres
      subst hst1; subst hload
      dsimp only
      exact ⟨lt_of_lt_of_eq hdefault hfd.symm,
        by
          intro d hdm
          have hdm2 : d ∈ st0.gif_durations := hdm
          rw [hgd] at hdm2
          cases hdm2⟩
  case image_collection =>
    rcases hres : loadImageCollection env st0 with e | st1 <;> rw [hres] at hload <;>
      simp only [Except.map, Except.ok.injEq] at hload <;>
      first
      | exact Except.noConfusion hload
      | skip
    obtain ⟨imgs, -, hst1⟩ := loadImageCollection_ok env st0 st1 hres
    subst hst1; subst hload
    dsimp only
    exact ⟨lt_of_lt_of_eq hdefault hfd.symm,
      by
        intro d hdm
        have hdm2 : d ∈ st0.gif_durations := hdm
        rw [hgd] at hdm2
        cases hdm2⟩
  case window_capture =>
    rcases hres : loadWindowCapture env st0 with e | st1 <;> rw [hres] at hload <;>
      simp only [Except.map, Except.ok.injEq] at hload <;>
      first
      | exact Except.noConfusion hload
      | skip
    obtain ⟨title, -, hst1⟩ := loadWindowCapture_ok env st0 st1 hres
    subst hst1; subst hload
    dsimp only
    refine ⟨?_, by
      intro d hdm
      have hdm2 : d ∈ st0.gif_durations := hdm
      rw [hgd] at hdm2
      cases hdm2⟩
    rw [hc]
    refine one_div_pos.mpr ?_
    exact_mod_cast hfps

/-- A GIF whose first frame is authored with a 0 ms duration. -/
def cexGifEnv : Env :=
  { baseEnv with gifFrames := fun _ => [(wImg, some 0), (wImg, some 100)] }

def cexGifCfg : DisplayConfig :=
  { background_path := "zero.gif", background_type := .gif }

def cexGifSt : FMState := okOr (fmInit cexGifEnv 0 cexGifCfg) (initState cexGifCfg)

/-- C5 (counterexample): _gif_duration maps an authored duration of 0 ms to
0.0 s, and a GIF whose first frame is authored 0 constructs successfully
with an effective frame duration of exactly 0 — not > 0. -/
theorem c5_duration_positive_counterexample :
    gifDuration (some 0) = 0 ∧
    fmInit cexGifEnv 0 cexGifCfg = .ok cexGifSt ∧
    cexGifSt.frame_duration = 0 ∧
    ¬ (0 < cexGifSt.frame_duration) := by
  exact ⟨by with_unfolding_all decide, by with_unfolding_all rfl,
    by with_unfolding_all decide, by with_unfolding_all decide⟩

/-- C5 (amended): for every successfully loaded source whose authored GIF
per-frame durations are all positive (a missing duration falls back to
100 ms = 0.1 s) and whose capture_fps is positive, the effective frame
duration is strictly positive at construction and after every poll
sequence — static images use the 2.0 s default, videos 1/fps (or 1/30 when
reported fps ≤ 0), window capture 1/capture_fps.  An authored duration of
exactly 0 ms, however, produces an effective duration of 0. -/
theorem c5_duration_positive_amended (env : Env) (t0 : ℚ) (cfg : DisplayConfig)
    (st : FMState) (h : fmInit env t0 cfg = .ok st)
    (hgif : ∀ fr ∈ env.gifFrames cfg.background_path, ∀ d, fr.2 = some d → 0 < d)
    (hfps : 0 < cfg.capture_fps) (polls : List (ℚ × Option Img)) :
    0 < st.frame_duration ∧ 0 < ((runPolls st polls).1).frame_duration := by
  have hd := fmInit_durpos env t0 cfg st h hgif hfps
  obtain ⟨hInv, -, -, -, -⟩ := fmInit_inv env t0 cfg st h
  exact ⟨hd.1, (durpos_run polls st hInv hd).1⟩

/-- C5 (witness): the amended theorem at the three-frame GIF fixture
(authored durations 100, 250, 50 — all positive) with one poll. -/
theorem c5_duration_positive_amended_witness :
    fmInit wGifEnv 0 wGifCfg = .ok wGifSt ∧
    (∀ fr ∈ wGifEnv.gifFrames wGifCfg.background_path,
      ∀ d, fr.2 = some d → 0 < d) ∧
    0 < wGifCfg.capture_fps ∧
    (0 < wGifSt.frame_duration ∧
      0 < ((runPolls wGifSt [(1, none)]).1).frame_duration) := by
  have hok : fmInit wGifEnv 0 wGifCfg = .ok wGifSt := by with_unfolding_all rfl
  have hgifpos : ∀ fr ∈ wGifEnv.gifFrames wGifCfg.background_path,
      ∀ d, fr.2 = some d → 0 < d := by
    intro fr hfr d hd
    have hmem : fr ∈ [(wImg, some 100), (wImg, some 250), (wImg, some 50)] := hfr
    simp only [List.mem_cons, List.not_mem_nil, or_false] at hmem
    rcases hmem with he | he | he <;> subst he <;>
      simp only [Option.some.injEq] at hd <;> omega
  have hfps : 0 < wGifCfg.capture_fps := by with_unfolding_all decide
  exact ⟨hok, hgifpos, hfps,
    c5_duration_positive_amended wGifEnv 0 wGifCfg wGifSt hok hgifpos hfps [(1, none)]⟩

/-! ## C6 -/

/-- C6: for a Video-kind configuration, when OpenCV is unavailable or the
extension is not a supported video format, construction does not fail on
that account: the loader decodes the same path as a static image, so
construction succeeds (with the single resized RGBA frame and the default
duration) whenever the path exists and decodes as one image. -/
theorem c6_video_fallback (env : Env) (t0 : ℚ) (cfg : DisplayConfig) (img : Img)
    (hbt : cfg.background_type = BackgroundType.video)
    (hunsup : env.hasOpenCV = false ∨ isVideoFile cfg.background_path = false)
    (hex : env.pathExists cfg.background_path = true)
    (hopen : env.openImage cfg.background_path = some img)
    (hm : cfg.metrics_configs = []) :
    ∃ st, fmInit env t0 cfg = .ok st ∧
      st.background_frames = [resizeImage cfg img] ∧
      st.is_window_capture_mode = false ∧
      st.frame_duration = DEFAULT_FRAME_DURATION := by
  have hcond : ¬ (cfg.metrics_configs ≠ []) := by simp [hm]
  have hb : (env.hasOpenCV && isVideoFile cfg.background_path) = false := by
    rcases hunsup with hh | hh <;> simp [hh]
  have h1 : fmInit env t0 cfg = loadBackground env t0 (initState cfg) := by
    unfold fmInit
    rw [if_neg hcond]
    rfl
  have h2 : loadBackground env t0 (initState cfg)
      = (loadStaticImage env (initState cfg)).map
          (fun st : FMState => { st with frame_start_time := t0 }) := by
    unfold loadBackground
    rw [show (initState cfg).config.background_type = BackgroundType.video from hbt]
    simp only []
    rw [show (env.hasOpenCV && isVideoFile (initState cfg).config.background_path)
        = false from hb]
    simp only [Bool.false_eq_true, if_false]
  have h3 : loadStaticImage env (initState cfg)
      = .ok { initState cfg with background_frames := [resizeImage cfg img] } := by
    unfold loadStaticImage
    rw [if_neg (show ¬ (env.pathExists (initState cfg).config.background_path
        = false) by
      rw [show env.pathExists (initState cfg).config.background_path = true
        from hex]
      simp)]
    rw [show env.openImage (initState cfg).config.background_path
        = some img from hopen]
    rfl
  refine ⟨{ initState cfg with
      background_frames := [resizeImage cfg img]
      frame_start_time := t0 }, ?_, rfl, rfl, rfl⟩
  rw [h1, h2, h3]
  rfl

/-- A video configuration pointing at an unsupported container extension. -/
def wFallbackCfg : DisplayConfig :=
  { background_path := "movie.xyz", background_type := .video }

/-- C6 (witness): the fallback theorem at an OpenCV-present environment and
a path whose extension .xyz is not in the supported set. -/
theorem c6_video_fallback_witness :
    wFallbackCfg.background_type = BackgroundType.video ∧
    (baseEnv.hasOpenCV = false ∨ isVideoFile wFallbackCfg.background_path = false) ∧
    baseEnv.pathExists wFallbackCfg.background_path = true ∧
    baseEnv.openImage wFallbackCfg.background_path = some wImg ∧
    wFallbackCfg.metrics_configs = [] ∧
    (∃ st, fmInit baseEnv 0 wFallbackCfg = .ok st ∧
      st.background_frames = [resizeImage wFallbackCfg wImg] ∧
      st.is_window_capture_mode = false ∧
      st.frame_duration = DEFAULT_FRAME_DURATION) := by
  have hunsup : baseEnv.hasOpenCV = false
      ∨ isVideoFile wFallbackCfg.background_path = false :=
    Or.inr (by with_unfolding_all rfl)
  exact ⟨rfl, hunsup, rfl, rfl, rfl,
    c6_video_fallback baseEnv 0 wFallbackCfg wImg rfl hunsup rfl rfl rfl⟩

/-! ## C7 -/

/-- A window-capture configuration (title present, 30 fps). -/
def wCapCfg : DisplayConfig :=
  { background_path := "", background_type := .window_capture,
    window_title := some "iStripper" }

def wCapSt : FMState := okOr (fmInit baseEnv 0 wCapCfg) (initState wCapCfg)

def wCapSt1 : FMState := (getCurrentFrame wCapSt 1 (some whiteImg)).1

/-- C7 (counterexample): after a successful capture at t = 1 returned an
all-white buffer, a pre-interval poll at t = 1 + 1/60 whose fresh capture
fails returns the black placeholder — pixel (0,0) is opaque black, not the
last known good buffer's white: previous captures are never cached. -/
theorem c7_stale_capture_counterexample :
    fmInit baseEnv 0 wCapCfg = .ok wCapSt ∧
    (getCurrentFrame wCapSt 1 (some whiteImg)).2.px 0 0 = ⟨255, 255, 255, 255⟩ ∧
    (1 + 1 / 60 : ℚ) - wCapSt1.frame_start_time < wCapSt1.frame_duration ∧
    (getCurrentFrame wCapSt1 (1 + 1 / 60) none).2.px 0 0 = ⟨0, 0, 0, 255⟩ ∧
    (⟨0, 0, 0, 255⟩ : Pixel) ≠ ⟨255, 255, 255, 255⟩ := by
  exact ⟨by with_unfolding_all rfl, by with_unfolding_all rfl,
    by with_unfolding_all decide, by with_unfolding_all rfl,
    by with_unfolding_all decide⟩

/-- C7 (amended): on a pre-interval poll in capture mode the scheduler does
attempt a fresh capture; the poll returns that capture's result if it
succeeds, and otherwise the black placeholder background_frames[0] —
regardless of any earlier successful capture, since no last-good buffer is
ever cached; the state is unchanged. -/
theorem c7_precapture_amended (st : FMState) (t : ℚ) (raw : Option Img)
    (wc : WindowCapture)
    (hmode : st.is_window_capture_mode = true)
    (hwc : st.window_capture = some wc)
    (hlate : t - st.frame_start_time < st.frame_duration) :
    (getCurrentFrame st t raw).1 = st ∧
    (getCurrentFrame st t raw).2
      = (wc.captureFrame raw).getD (st.background_frames.getD 0 Img.fail) ∧
    (raw = none →
      (getCurrentFrame st t raw).2 = st.background_frames.getD 0 Img.fail) := by
  unfold getCurrentFrame
  rw [hmode, hwc]
  simp only []
  rw [if_neg (not_le.mpr hlate)]
  refine ⟨rfl, rfl, ?_⟩
  rintro rfl
  rfl

/-- C7 (witness): the amended theorem at the capture fixture, one pacing
interval into the window, with a failing fresh capture. -/
theorem c7_precapture_amended_witness :
    wCapSt1.is_window_capture_mode = true ∧
    wCapSt1.window_capture = some (WindowCapture.init "iStripper" 320 240 30) ∧
    (1 + 1 / 60 : ℚ) - wCapSt1.frame_start_time < wCapSt1.frame_duration ∧
    ((getCurrentFrame wCapSt1 (1 + 1 / 60) none).1 = wCapSt1 ∧
      (getCurrentFrame wCapSt1 (1 + 1 / 60) none).2
        = ((WindowCapture.init "iStripper" 320 240 30).captureFrame none).getD
            (wCapSt1.background_frames.getD 0 Img.fail) ∧
      (none = (none : Option Img) →
        (getCurrentFrame wCapSt1 (1 + 1 / 60) none).2
          = wCapSt1.background_frames.getD 0 Img.fail)) := by
  refine ⟨by with_unfolding_all rfl, by with_unfolding_all rfl,
    by with_unfolding_all decide,
    c7_precapture_amended wCapSt1 (1 + 1 / 60) none
      (WindowCapture.init "iStripper" 320 240 30)
      (by with_unfolding_all rfl) (by with_unfolding_all rfl)
      (by with_unfolding_all decide)⟩

/-! ## C8 -/

/-- C8: if collecting metrics raises during a refresh cycle, the loop
propagates the logged error, reschedules nothing (no pending timer
remains, so no further refresh ever fires), and leaves the published
snapshot untouched; the polling path keeps serving that last snapshot and
never restarts the timer. -/
theorem c8_metrics_failure_stops_refresh (env : Env) (st : FMState) (e : String)
    (h : getCurrentMetric env = .error e) :
    metricsUpdateLoop env st = ({ st with metrics_thread := false }, some e) ∧
    (metricsUpdateLoop env st).1.current_metrics = st.current_metrics ∧
    (metricsUpdateLoop env st).1.metrics_thread = false ∧
    getCurrentMetrics (metricsUpdateLoop env st).1 = getCurrentMetrics st ∧
    (∀ t raw,
      (getCurrentFrame (metricsUpdateLoop env st).1 t raw).1.current_metrics
        = st.current_metrics ∧
      (getCurrentFrame (metricsUpdateLoop env st).1 t raw).1.metrics_thread
        = false) := by
  have hstep : metricsUpdateLoop env st
      = ({ st with metrics_thread := false }, some e) := by
    unfold metricsUpdateLoop
    rw [h]
  refine ⟨hstep, by rw [hstep], by rw [hstep], by rw [hstep]; rfl, ?_⟩
  intro t raw
  obtain ⟨-, -, -, -, -, hm, -, hthread, -, -⟩ :=
    step_state (metricsUpdateLoop env st).1 t raw
  constructor
  · rw [hm, hstep]
  · rw [hthread, hstep]

/-- An environment whose CPU collector raises. -/
def cexMetricsEnv : Env := { baseEnv with cpuData := .error "sensor failure" }

/-- C8 (witness): the refresh-failure theorem at a concrete raising
collector and a concrete state. -/
theorem c8_metrics_failure_stops_refresh_witness :
    getCurrentMetric cexMetricsEnv = .error "sensor failure" ∧
    (metricsUpdateLoop cexMetricsEnv (initState wImageCfg)
        = ({ initState wImageCfg with metrics_thread := false },
            some "sensor failure") ∧
      (metricsUpdateLoop cexMetricsEnv (initState wImageCfg)).1.current_metrics
        = (initState wImageCfg).current_metrics ∧
      (metricsUpdateLoop cexMetricsEnv (initState wImageCfg)).1.metrics_thread
        = false ∧
      getCurrentMetrics (metricsUpdateLoop cexMetricsEnv (initState wImageCfg)).1
        = getCurrentMetrics (initState wImageCfg) ∧
      (∀ t raw,
        (getCurrentFrame (metricsUpdateLoop cexMetricsEnv
            (initState wImageCfg)).1 t raw).1.current_metrics
          = (initState wImageCfg).current_metrics ∧
        (getCurrentFrame (metricsUpdateLoop cexMetricsEnv
            (initState wImageCfg)).1 t raw).1.metrics_thread = false)) :=
  ⟨rfl, c8_metrics_failure_stops_refresh cexMetricsEnv (initState wImageCfg)
    "sensor failure" rfl⟩

/-! ## C9 -/

/-- A window-capture configuration that asks for 1.5× zoom. -/
def cexScaleCfg : DisplayConfig :=
  { background_path := "", background_type := .window_capture,
    window_title := some "iStripper", scale_factor := 3 / 2 }

def cexScaleSt : FMState := okOr (fmInit baseEnv 0 cexScaleCfg) (initState cexScaleCfg)

/-- C9 (code bug): _load_window_capture constructs WindowCapture without
passing the DisplayConfig's scale_factor, so the instance keeps the 1.0
default even when the configuration (whose own doc comment says the factor
applies to window capture, and which the iStripper wizard writes as 1.5)
asks for 1.5×: every captured frame is plainly resized, never
zoom-cropped. -/
theorem c9_scale_factor_not_passed :
    cexScaleCfg.scale_factor = 3 / 2 ∧
    fmInit baseEnv 0 cexScaleCfg = .ok cexScaleSt ∧
    (cexScaleSt.window_capture.map (fun wc => wc.scale_factor)) = some 1 ∧
    ¬ ((cexScaleSt.window_capture.map (fun wc => wc.scale_factor))
        = some cexScaleCfg.scale_factor) ∧
    (cexScaleSt.window_capture.map (fun wc => wc.applyScaling whiteImg))
      = some (ensureRGBA (whiteImg.resize 320 240)) := by
  exact ⟨by with_unfolding_all rfl, by with_unfolding_all rfl,
    by with_unfolding_all rfl, by with_unfolding_all decide,
    by with_unfolding_all rfl⟩

/-! ## C10 -/

/-- C10: in every state, get_current_frame_info() raises AttributeError:
it reads self.wait_duration, which is neither among the attributes any
method of the class ever assigns nor a class attribute, so the documented
(frame_index, display_duration) pair is never returned. -/
theorem c10_frame_info_attribute_error (st : FMState) :
    getCurrentFrameInfo st = .error "AttributeError" := by
  unfold getCurrentFrameInfo
  rw [if_neg (by with_unfolding_all decide)]
